import Mathlib

/-!
Verification of the request-handling contract of the cdf_tts gateway.

The repository contains three near-duplicate HTTP gateways around a cloud
text-to-speech and speech-to-text vendor:
  * `app.py`  : FastAPI, file-mode synthesis, sync-then-long-running fallback.
  * `main.py` : FastAPI, streaming synthesis, no fallback on recognition.
  * `test.py` : Flask legacy variant, fixed output file, 3-attempt retry loop.

We shallowly embed the handlers as pure Lean functions.  Vendor calls are
modelled by `Except String` valued oracles passed as arguments (the vendor is
an opaque external collaborator); the handler definitions record how many
synchronous / long-running vendor calls were issued and which files were
written, alongside the HTTP status and response body they produce.
-/

namespace CdfTts

/-- Raw audio byte buffers are modelled as lists of bytes (numbers). -/
abbrev Bytes := List Nat

/-- One ranked transcription alternative returned by the vendor
(`result.alternatives[i]`, of which only `.transcript` is read). -/
structure SpeechAlt where
  transcript : String
deriving DecidableEq, Inhabited

/-- One result segment of a vendor recognition response
(`response.results[i]`). -/
structure SpeechResult where
  alternatives : List SpeechAlt
deriving DecidableEq, Inhabited

/-- A vendor recognition response: an ordered list of result segments. -/
structure RecoResponse where
  results : List SpeechResult
deriving DecidableEq, Inhabited

/-- Embedding of the transcript-extraction comprehension shared by all three
variants:
`join([result.alternatives[0].transcript for result in response.results if result.alternatives])`.
The truthiness guard `if result.alternatives` becomes a non-emptiness filter
and the index `[0]` becomes `headI` (only ever applied to a filtered,
non-empty list). -/
def extractTranscript (resp : RecoResponse) : String :=
  String.join (((resp.results.filter (fun r => !r.alternatives.isEmpty)).map
    (fun r => r.alternatives.headI.transcript)))

/-- Embedding of `audio_stream_generator` from `main.py`: repeatedly read
4096-byte chunks from the buffer and yield each non-empty chunk. -/
def audio_stream_generator : Bytes → List Bytes
  | [] => []
  | x :: rest =>
    (x :: rest).take 4096 :: audio_stream_generator ((x :: rest).drop 4096)
termination_by b => b.length
decreasing_by
  simp only [List.length_drop, List.length_cons]
  omega

/-- The textual form `str(e)` of a FastAPI `HTTPException`, as produced by the
starlette base class: the status code, a colon, and the detail. -/
def httpExnStr (status : Nat) (detail : String) : String :=
  toString status ++ ": " ++ detail

/-- Response bodies of the synthesis handlers. -/
inductive TtsBody where
  /-- JSON body with the audio path and the original text (file mode). -/
  | json (audio_path : String) (text : String)
  /-- Streamed body: the yielded chunks, media type and content disposition. -/
  | stream (chunks : List Bytes) (media_type : String) (content_disposition : String)
  /-- Error body (the `detail` of an HTTPException or the jsonified error). -/
  | err (detail : String)
deriving DecidableEq

/-- Observable outcome of one synthesis request: HTTP status, body, number of
vendor synthesize calls issued, and files written (path, content). -/
structure TtsRun where
  status : Nat
  body : TtsBody
  synthCalls : Nat
  writes : List (String × Bytes)
deriving DecidableEq

/-- The file name written by the `app.py` file-mode handler,
`f"static/output_{timestamp}.wav"`. -/
def appTtsFileName (timestamp : Nat) : String :=
  "static/output_" ++ toString timestamp ++ ".wav"

/-- Embedding of `text_to_speech` from `app.py`.  The whole handler body is
wrapped in `try/except Exception`, so the `HTTPException(400)` raised for
empty text is itself caught and re-raised as a 500 whose detail is `str(e)`.
`synth` is the vendor synthesize oracle; `timestamp` is `int(time.time())`. -/
def app_text_to_speech (text : String) (timestamp : Nat)
    (synth : Except String Bytes) : TtsRun :=
  if text = "" then
    { status := 500, body := .err (httpExnStr 400 "Please provide text to convert"),
      synthCalls := 0, writes := [] }
  else
    match synth with
    | .error e =>
      { status := 500, body := .err e, synthCalls := 1, writes := [] }
    | .ok audio =>
      { status := 200,
        body := .json ("/static/output_" ++ toString timestamp ++ ".wav") text,
        synthCalls := 1,
        writes := [(appTtsFileName timestamp, audio)] }

/-- Embedding of `text_to_speech` from `main.py` (streaming variant).  As in
`app.py`, the empty-text `HTTPException(400)` is swallowed by the blanket
`except Exception` and resurfaces as a 500 with a prefixed detail. -/
def main_text_to_speech (text : String) (synth : Except String Bytes) : TtsRun :=
  if text = "" then
    { status := 500,
      body := .err ("Failed to synthesize speech: " ++
        httpExnStr 400 "Please provide text to convert"),
      synthCalls := 0, writes := [] }
  else
    match synth with
    | .error e =>
      { status := 500, body := .err ("Failed to synthesize speech: " ++ e),
        synthCalls := 1, writes := [] }
    | .ok audio =>
      { status := 200,
        body := .stream (audio_stream_generator audio) "audio/wav"
          "inline; filename=synthesized_audio.wav",
        synthCalls := 1, writes := [] }

/-- Embedding of `generate_audio` from `test.py` (Flask legacy variant).
`text_input` is the optional form field; the handler substitutes a default
when it is absent, returns 400 (via `return`, not `raise`, hence correctly)
on empty text, and always writes the fixed file `static/output.wav`. -/
def test_generate_audio (text_input : Option String)
    (synth : Except String Bytes) : TtsRun :=
  let text := text_input.getD "Hello, how are you?"
  if text = "" then
    { status := 400, body := .err "Please provide some text.",
      synthCalls := 0, writes := [] }
  else
    match synth with
    | .error e =>
      { status := 500, body := .err e, synthCalls := 1, writes := [] }
    | .ok audio =>
      { status := 200, body := .json "/static/output.wav" text,
        synthCalls := 1, writes := [("static/output.wav", audio)] }

/-- Response bodies of the transcription handlers. -/
inductive SttBody where
  /-- JSON body with the transcript and rounded elapsed seconds. -/
  | success (transcript : String) (processing_time_seconds : Nat)
  /-- Error body (HTTPException detail). -/
  | err (detail : String)
deriving DecidableEq

/-- Observable outcome of one transcription request in the FastAPI variants:
HTTP status, body, and how many synchronous / long-running vendor recognize
calls were issued. -/
structure SttRun where
  status : Nat
  body : SttBody
  syncCalls : Nat
  longCalls : Nat
deriving DecidableEq

/-- Embedding of `speech_to_text` from `app.py`.  The empty-audio
`HTTPException(400)` is raised inside the outer `try`, get caught by the
blanket `except Exception`, and resurfaces as a 500.  On synchronous
recognition failure the handler falls back to one long-running attempt; a
second failure is caught by the outer handler as a 500 whose detail is the
long-running error.  `elapsed` abstracts the measured wall-clock time. -/
def app_speech_to_text (audio : Bytes) (syncR longR : Except String RecoResponse)
    (elapsed : Nat) : SttRun :=
  if audio = [] then
    { status := 500, body := .err (httpExnStr 400 "Empty audio file"),
      syncCalls := 0, longCalls := 0 }
  else
    match syncR with
    | .ok resp =>
      let transcript := extractTranscript resp
      if transcript = "" then
        { status := 200, body := .success "No speech detected" elapsed,
          syncCalls := 1, longCalls := 0 }
      else
        { status := 200, body := .success transcript elapsed,
          syncCalls := 1, longCalls := 0 }
    | .error _ =>
      match longR with
      | .ok resp =>
        let transcript := extractTranscript resp
        if transcript = "" then
          { status := 200, body := .success "No speech detected" elapsed,
            syncCalls := 1, longCalls := 1 }
        else
          { status := 200, body := .success transcript elapsed,
            syncCalls := 1, longCalls := 1 }
      | .error e2 =>
        { status := 500, body := .err e2, syncCalls := 1, longCalls := 1 }

/-- The 500 detail produced by `speech_to_text` in `main.py` on synchronous
recognition failure. -/
def mainSttFailDetail (e : String) : String :=
  "Speech-to-text failed. Ensure audio format (encoding, sample rate) is correct and within limits, and check network. Error: " ++ e

/-- Embedding of `speech_to_text` from `main.py`.  The empty-audio check sits
before the `try` block, so its `HTTPException(400)` reaches the framework and
produces a genuine 400.  There is no fallback: synchronous failure surfaces
immediately as a 500 and no further vendor call is made. -/
def main_speech_to_text (audio : Bytes) (syncR : Except String RecoResponse)
    (elapsed : Nat) : SttRun :=
  if audio = [] then
    { status := 400, body := .err "Empty audio file", syncCalls := 0, longCalls := 0 }
  else
    match syncR with
    | .ok resp =>
      let transcript := extractTranscript resp
      if transcript = "" then
        { status := 200, body := .success "No speech detected" elapsed,
          syncCalls := 1, longCalls := 0 }
      else
        { status := 200, body := .success transcript elapsed,
          syncCalls := 1, longCalls := 0 }
    | .error e =>
      { status := 500, body := .err (mainSttFailDetail e),
        syncCalls := 1, longCalls := 0 }

/-- Observable outcome of one `generate_text` request in the Flask variant. -/
structure TestSttRun where
  status : Nat
  transcript : Option String
  errMsg : Option String
  longCalls : Nat
deriving DecidableEq

/-- Embedding of the `for attempt in range(3)` retry loop of `generate_text`
in `test.py`: up to three long-running recognition attempts, stopping at the
first success, surfacing the error of the third attempt when all fail.  The
oracle maps the attempt index to that attempt's outcome; the second component
counts the attempts actually made. -/
def test_long_running_attempts (oracle : Nat → Except String RecoResponse) :
    Except String RecoResponse × Nat :=
  match oracle 0 with
  | .ok r => (.ok r, 1)
  | .error _ =>
    match oracle 1 with
    | .ok r => (.ok r, 2)
    | .error _ =>
      match oracle 2 with
      | .ok r => (.ok r, 3)
      | .error e => (.error e, 3)

/-- Embedding of `generate_text` from `test.py`: read the previously saved
audio file (404 if absent), run the bounded retry loop, and on success return
the extracted transcript with no sentinel substitution. -/
def test_generate_text (fileAudio : Option Bytes)
    (oracle : Nat → Except String RecoResponse) : TestSttRun :=
  match fileAudio with
  | none =>
    { status := 404, transcript := none, errMsg := some "Audio file not found.",
      longCalls := 0 }
  | some _ =>
    match test_long_running_attempts oracle with
    | (.error e, n) =>
      { status := 500, transcript := none, errMsg := some e, longCalls := n }
    | (.ok resp, n) =>
      { status := 200, transcript := some (extractTranscript resp),
        errMsg := none, longCalls := n }

/-! ### Decimal rendering of the timestamp

`app.py` embeds `int(time.time())` into the file name via an f-string, i.e.
via the decimal rendering of a natural number.  To reason about file-name
uniqueness we relate the core renderer `Nat.repr` to a structurally simple
digit-list function and prove that function injective. -/

/-- The decimal digit characters of `n`, most significant first. -/
def decChars (n : Nat) : List Char :=
  if _h : n < 10 then [Nat.digitChar n]
  else decChars (n / 10) ++ [Nat.digitChar (n % 10)]
termination_by n
decreasing_by exact Nat.div_lt_self (by omega) (by omega)

theorem decChars_lt {n : Nat} (hn : n < 10) :
    decChars n = [Nat.digitChar n] := by
  conv_lhs => rw [decChars]
  rw [dif_pos hn]

theorem decChars_ge {n : Nat} (hn : ¬ n < 10) :
    decChars n = decChars (n / 10) ++ [Nat.digitChar (n % 10)] := by
  conv_lhs => rw [decChars]
  rw [dif_neg hn]

theorem toDigitsCore_eq_decChars :
    ∀ (f n : Nat) (acc : List Char), n < f →
      Nat.toDigitsCore 10 f n acc = decChars n ++ acc := by
  intro f
  induction f with
  | zero => intro n acc h; omega
  | succ f ih =>
    intro n acc h
    simp only [Nat.toDigitsCore]
    by_cases h10 : n / 10 = 0
    · have hn : n < 10 := by omega
      have hmod : n % 10 = n := by omega
      rw [if_pos h10, decChars_lt hn, hmod]
      simp
    · have hn : ¬ n < 10 := by omega
      have hlt : n / 10 < f := by omega
      rw [if_neg h10, ih (n / 10) _ hlt, decChars_ge hn, List.append_assoc]
      simp

theorem nat_repr_eq_decChars (n : Nat) :
    Nat.repr n = (decChars n).asString := by
  show (Nat.toDigits 10 n).asString = _
  unfold Nat.toDigits
  rw [toDigitsCore_eq_decChars (n + 1) n [] (by omega)]
  simp

theorem digitChar_inj :
    ∀ a, a < 10 → ∀ b, b < 10 → Nat.digitChar a = Nat.digitChar b → a = b := by
  decide

theorem decChars_ne_nil (n : Nat) : decChars n ≠ [] := by
  by_cases h : n < 10
  · rw [decChars_lt h]; simp
  · rw [decChars_ge h]; simp

theorem decChars_inj : ∀ m n : Nat, decChars m = decChars n → m = n := by
  intro m
  induction m using Nat.strong_induction_on with
  | _ m ih =>
    intro n h
    by_cases hm : m < 10 <;> by_cases hn : n < 10
    · rw [decChars_lt hm, decChars_lt hn] at h
      simp only [List.cons.injEq, and_true] at h
      exact digitChar_inj m hm n hn h
    · rw [decChars_lt hm, decChars_ge hn] at h
      have hlen := congrArg List.length h
      simp only [List.length_singleton, List.length_append, List.length_cons,
        List.length_nil] at hlen
      have : decChars (n / 10) = [] := by
        cases hx : decChars (n / 10) <;> simp [hx] at hlen ⊢
      exact absurd this (decChars_ne_nil _)
    · rw [decChars_ge hm, decChars_lt hn] at h
      have hlen := congrArg List.length h
      simp only [List.length_singleton, List.length_append, List.length_cons,
        List.length_nil] at hlen
      have : decChars (m / 10) = [] := by
        cases hx : decChars (m / 10) <;> simp [hx] at hlen ⊢
      exact absurd this (decChars_ne_nil _)
    · rw [decChars_ge hm, decChars_ge hn] at h
      have hrev := congrArg List.reverse h
      simp only [List.reverse_append, List.reverse_singleton, List.singleton_append,
        List.cons.injEq, List.reverse_inj] at hrev
      obtain ⟨hd, htl⟩ := hrev
      have h1 : m % 10 = n % 10 :=
        digitChar_inj _ (Nat.mod_lt m (by omega)) _ (Nat.mod_lt n (by omega)) hd
      have h2 : m / 10 = n / 10 :=
        ih (m / 10) (Nat.div_lt_self (by omega) (by omega)) (n / 10) htl
      omega

theorem nat_repr_inj {m n : Nat} (h : Nat.repr m = Nat.repr n) : m = n := by
  rw [nat_repr_eq_decChars, nat_repr_eq_decChars] at h
  have h2 : decChars m = decChars n := congrArg String.data h
  exact decChars_inj m n h2

theorem toString_nat_inj {m n : Nat} (h : toString m = toString n) : m = n :=
  nat_repr_inj h

theorem appTtsFileName_inj {t1 t2 : Nat}
    (h : appTtsFileName t1 = appTtsFileName t2) : t1 = t2 := by
  have hd := congrArg String.data h
  simp only [appTtsFileName, String.data_append, List.append_assoc] at hd
  have hd2 := List.append_cancel_left hd
  have hd3 := List.append_cancel_right hd2
  exact toString_nat_inj (String.ext hd3)

/-! ### Properties of `audio_stream_generator` -/

theorem audio_stream_generator_nil :
    audio_stream_generator [] = [] := by
  simp [audio_stream_generator]

theorem audio_stream_generator_ne_nil {b : Bytes} (hb : b ≠ []) :
    audio_stream_generator b = b.take 4096 :: audio_stream_generator (b.drop 4096) := by
  cases b with
  | nil => exact absurd rfl hb
  | cons x rest => simp [audio_stream_generator]

theorem audio_stream_generator_arg_ne_nil {b : Bytes}
    (h : audio_stream_generator b ≠ []) : b ≠ [] := by
  intro hb
  rw [hb, audio_stream_generator_nil] at h
  exact h rfl

theorem asg_flatten (b : Bytes) : (audio_stream_generator b).flatten = b := by
  induction b using audio_stream_generator.induct with
  | case1 => simp [audio_stream_generator_nil]
  | case2 x rest ih =>
    rw [audio_stream_generator_ne_nil (by simp), List.flatten_cons, ih,
      List.take_append_drop]

theorem asg_chunk_ne_nil (b : Bytes) :
    ∀ c ∈ audio_stream_generator b, c ≠ [] := by
  induction b using audio_stream_generator.induct with
  | case1 => simp [audio_stream_generator_nil]
  | case2 x rest ih =>
    rw [audio_stream_generator_ne_nil (by simp)]
    intro c hc
    rcases List.mem_cons.mp hc with h | h
    · subst h; simp
    · exact ih c h

theorem asg_chunk_le (b : Bytes) :
    ∀ c ∈ audio_stream_generator b, c.length ≤ 4096 := by
  induction b using audio_stream_generator.induct with
  | case1 => simp [audio_stream_generator_nil]
  | case2 x rest ih =>
    rw [audio_stream_generator_ne_nil (by simp)]
    intro c hc
    rcases List.mem_cons.mp hc with h | h
    · subst h
      simp only [List.length_take]
      omega
    · exact ih c h

theorem asg_dropLast (b : Bytes) :
    ∀ c ∈ (audio_stream_generator b).dropLast, c.length = 4096 := by
  induction b using audio_stream_generator.induct with
  | case1 => simp [audio_stream_generator_nil]
  | case2 x rest ih =>
    rw [audio_stream_generator_ne_nil (by simp)]
    by_cases ht : audio_stream_generator ((x :: rest).drop 4096) = []
    · rw [ht]
      simp
    · have hdrop : (x :: rest).drop 4096 ≠ [] := audio_stream_generator_arg_ne_nil ht
      have hlen : 4096 < (x :: rest).length := by
        by_contra hle
        exact hdrop (List.drop_eq_nil_of_le (by omega))
      rw [List.dropLast_cons_of_ne_nil ht]
      intro c hc
      rcases List.mem_cons.mp hc with h | h
      · subst h
        simp only [List.length_take]
        omega
      · exact ih c h

/-! ### Properties of `extractTranscript` -/

/-- The map-over-filter form of the extraction equals a `filterMap` through
`head?`: the first alternative of a segment is consulted exactly when the
segment has at least one alternative, and the extraction is total. -/
theorem extract_list_filterMap (l : List SpeechResult) :
    (l.filter (fun r => !r.alternatives.isEmpty)).map
        (fun r => r.alternatives.headI.transcript)
      = l.filterMap (fun r => r.alternatives.head?.map (fun a => a.transcript)) := by
  induction l with
  | nil => simp
  | cons r l ih =>
    cases h : r.alternatives with
    | nil => simp [List.filter_cons, List.filterMap_cons, h, ih]
    | cons a rest => simp [List.filter_cons, List.filterMap_cons, h, ih]

theorem extractTranscript_eq_filterMap (resp : RecoResponse) :
    extractTranscript resp
      = String.join (resp.results.filterMap
          (fun r => r.alternatives.head?.map (fun a => a.transcript))) :=
  congrArg String.join (extract_list_filterMap resp.results)

/-- A segment with no alternatives is silently skipped by the extraction. -/
theorem extractTranscript_skip (xs ys : List SpeechResult) (seg : SpeechResult)
    (hseg : seg.alternatives = []) :
    extractTranscript ⟨xs ++ seg :: ys⟩ = extractTranscript ⟨xs ++ ys⟩ := by
  unfold extractTranscript
  simp [List.filter_append, List.filter_cons, hseg]

/-- When every segment has at least one alternative, the extraction is the
concatenation, in order, of the top-alternative transcripts of all
segments. -/
theorem extractTranscript_all_nonempty (resp : RecoResponse)
    (hall : ∀ r ∈ resp.results, r.alternatives ≠ []) :
    extractTranscript resp
      = String.join (resp.results.map (fun r => r.alternatives.headI.transcript)) := by
  unfold extractTranscript
  congr 1
  rw [List.filter_eq_self.mpr]
  intro r hr
  simpa using hall r hr

/-- `String.join` distributes over cons. -/
theorem string_join_cons (a : String) (l : List String) :
    String.join (a :: l) = a ++ String.join l := by
  apply String.ext
  simp [String.data_join, String.data_append]

/-- Prepending a segment that carries at least one alternative prepends that
top alternative's transcript, with no separator, to the extraction of the
remaining segments. -/
theorem extractTranscript_cons_nonempty (a : SpeechAlt) (alts : List SpeechAlt)
    (rest : List SpeechResult) :
    extractTranscript ⟨SpeechResult.mk (a :: alts) :: rest⟩
      = a.transcript ++ extractTranscript ⟨rest⟩ := by
  unfold extractTranscript
  simp only [List.filter_cons, List.isEmpty_cons, Bool.not_false, if_true,
    List.map_cons, List.headI]
  exact string_join_cons _ _

/-! ### Claim theorems -/

/-- Claim C1.  The claim states that an empty-text synthesis request returns a
client-error response and issues no vendor call.  No vendor call is indeed
issued, but in both FastAPI variants the `HTTPException(400)` raised for empty
text sits inside the blanket `try/except Exception`, which catches it and
re-raises it as a 500 server error: the spec states the evident intent of the
raised 400 and the code path is a slip.  This theorem evaluates the embedded
handlers at the failing input: `app.py` and `main.py` answer 500 (with the
swallowed 400 detail inside), while the Flask variant, which returns its 400
instead of raising it, answers 400 as the claim demands; none of the three
issues a vendor call. -/
theorem claim1_empty_text_bug_eval :
    (app_text_to_speech "" 0 (.ok [0])).status = 500
  ∧ (app_text_to_speech "" 0 (.ok [0])).synthCalls = 0
  ∧ (app_text_to_speech "" 0 (.ok [0])).body
      = .err (httpExnStr 400 "Please provide text to convert")
  ∧ (main_text_to_speech "" (.ok [0])).status = 500
  ∧ (main_text_to_speech "" (.ok [0])).synthCalls = 0
  ∧ (test_generate_audio (some "") (.ok [0])).status = 400
  ∧ (test_generate_audio (some "") (.ok [0])).synthCalls = 0 := by
  refine ⟨rfl, rfl, rfl, rfl, rfl, ?_, ?_⟩ <;> decide

/-- Claim C2.  The claim states that an empty-audio transcription request
returns a client-error response with no vendor call.  In `main.py` the check
sits before the `try` block and the handler indeed answers 400 with no vendor
call; in `app.py` the identical check sits inside the blanket
`try/except Exception`, so the 400 is swallowed and the handler answers 500.
Neither variant issues any recognize call. -/
theorem claim2_empty_audio_bug_eval :
    (app_speech_to_text [] (.ok ⟨[]⟩) (.ok ⟨[]⟩) 0).status = 500
  ∧ (app_speech_to_text [] (.ok ⟨[]⟩) (.ok ⟨[]⟩) 0).syncCalls = 0
  ∧ (app_speech_to_text [] (.ok ⟨[]⟩) (.ok ⟨[]⟩) 0).longCalls = 0
  ∧ (app_speech_to_text [] (.ok ⟨[]⟩) (.ok ⟨[]⟩) 0).body
      = .err (httpExnStr 400 "Empty audio file")
  ∧ (main_speech_to_text [] (.ok ⟨[]⟩) 0).status = 400
  ∧ (main_speech_to_text [] (.ok ⟨[]⟩) 0).syncCalls = 0
  ∧ (main_speech_to_text [] (.ok ⟨[]⟩) 0).longCalls = 0 := by
  refine ⟨rfl, rfl, rfl, rfl, ?_, rfl, rfl⟩
  decide

/-- Claim C9: the chunks yielded by `audio_stream_generator` flatten back to
exactly the input buffer, every chunk except possibly the last has length
exactly 4096, no chunk is empty, and the empty buffer yields no chunks. -/
theorem claim9_stream_chunks (b : Bytes) :
    (audio_stream_generator b).flatten = b
  ∧ (∀ c ∈ (audio_stream_generator b).dropLast, c.length = 4096)
  ∧ (∀ c ∈ audio_stream_generator b, c ≠ [])
  ∧ audio_stream_generator ([] : Bytes) = [] :=
  ⟨asg_flatten b, asg_dropLast b, asg_chunk_ne_nil b, audio_stream_generator_nil⟩

/-- Concrete instance of claim C9 on a 4097-byte buffer (two chunks, the
first full, the last a single byte). -/
theorem claim9_stream_chunks_witness :
    (audio_stream_generator (List.replicate 4097 0)).flatten = List.replicate 4097 0
  ∧ (∀ c ∈ (audio_stream_generator (List.replicate 4097 0)).dropLast, c.length = 4096)
  ∧ (∀ c ∈ audio_stream_generator (List.replicate 4097 0), c ≠ [])
  ∧ audio_stream_generator ([] : Bytes) = [] :=
  claim9_stream_chunks (List.replicate 4097 0)

/-- Claim C10: a result segment with an empty alternatives list is silently
skipped by the transcript extraction, and the extraction is equal to a
`filterMap` through `head?`, i.e. the first alternative is consulted exactly
when one exists, so extraction is total on every vendor response. -/
theorem claim10_skip_empty_alternatives (xs ys : List SpeechResult)
    (seg : SpeechResult) (hseg : seg.alternatives = []) (resp : RecoResponse) :
    extractTranscript ⟨xs ++ seg :: ys⟩ = extractTranscript ⟨xs ++ ys⟩
  ∧ extractTranscript resp
      = String.join (resp.results.filterMap
          (fun r => r.alternatives.head?.map (fun a => a.transcript))) :=
  ⟨extractTranscript_skip xs ys seg hseg, extractTranscript_eq_filterMap resp⟩

/-- Concrete instance of claim C10: an alternatives-free segment spliced
between two ordinary segments contributes nothing. -/
theorem claim10_skip_empty_alternatives_witness :
    extractTranscript
        ⟨[SpeechResult.mk [SpeechAlt.mk "hello "]]
          ++ SpeechResult.mk [] :: [SpeechResult.mk [SpeechAlt.mk "world"]]⟩
      = extractTranscript
        ⟨[SpeechResult.mk [SpeechAlt.mk "hello "]]
          ++ [SpeechResult.mk [SpeechAlt.mk "world"]]⟩
  ∧ extractTranscript ⟨[SpeechResult.mk [], SpeechResult.mk [SpeechAlt.mk "c"]]⟩
      = String.join
          (([SpeechResult.mk [], SpeechResult.mk [SpeechAlt.mk "c"]]).filterMap
            (fun r => r.alternatives.head?.map (fun a => a.transcript))) :=
  claim10_skip_empty_alternatives
    [SpeechResult.mk [SpeechAlt.mk "hello "]]
    [SpeechResult.mk [SpeechAlt.mk "world"]]
    (SpeechResult.mk []) rfl
    ⟨[SpeechResult.mk [], SpeechResult.mk [SpeechAlt.mk "c"]]⟩

/-- Claim C3: when the synchronous recognition call fails, the `app.py`
variant invokes the long-running path exactly once and a second failure
surfaces as a 500; the `main.py` variant answers 500 after its single
synchronous call, issuing no long-running call; the `test.py` variant makes
at most 3 long-running attempts in total and, when all fail, surfaces the
error of the last (third) attempt. -/
theorem claim3_retry_policies
    (audio : Bytes) (ha : audio ≠ []) (e1 e2 eM : String)
    (longR : Except String RecoResponse) (elapsed : Nat)
    (oracle : Nat → Except String RecoResponse)
    (fileAudio : Bytes) (g : Nat → String) :
    (app_speech_to_text audio (.error e1) longR elapsed).longCalls = 1
  ∧ (app_speech_to_text audio (.error e1) (.error e2) elapsed).status = 500
  ∧ (app_speech_to_text audio (.error e1) (.error e2) elapsed).body = .err e2
  ∧ (main_speech_to_text audio (.error eM) elapsed).status = 500
  ∧ (main_speech_to_text audio (.error eM) elapsed).syncCalls = 1
  ∧ (main_speech_to_text audio (.error eM) elapsed).longCalls = 0
  ∧ (test_generate_text (some fileAudio) oracle).longCalls ≤ 3
  ∧ (test_generate_text (some fileAudio) (fun i => .error (g i))).errMsg = some (g 2)
  ∧ (test_generate_text (some fileAudio) (fun i => .error (g i))).status = 500 := by
  refine ⟨?_, ?_, ?_, ?_, ?_, ?_, ?_, rfl, rfl⟩
  · unfold app_speech_to_text
    rw [if_neg ha]
    cases longR with
    | ok r =>
      by_cases h : extractTranscript r = "" <;> simp [h]
    | error e => rfl
  · unfold app_speech_to_text
    rw [if_neg ha]
  · unfold app_speech_to_text
    rw [if_neg ha]
  · unfold main_speech_to_text
    rw [if_neg ha]
  · unfold main_speech_to_text
    rw [if_neg ha]
  · unfold main_speech_to_text
    rw [if_neg ha]
  · unfold test_generate_text test_long_running_attempts
    cases h0 : oracle 0 with
    | ok r => simp
    | error e =>
      cases h1 : oracle 1 with
      | ok r => simp
      | error e' =>
        cases h2 : oracle 2 <;> simp

/-- Concrete instance of claim C3: one non-empty audio buffer, failing
oracles in all three variants. -/
theorem claim3_retry_policies_witness :
    (app_speech_to_text [1] (.error "s") (.error "l") 0).longCalls = 1
  ∧ (app_speech_to_text [1] (.error "s") (.error "l") 0).status = 500
  ∧ (app_speech_to_text [1] (.error "s") (.error "l") 0).body = .err "l"
  ∧ (main_speech_to_text [1] (.error "m") 0).status = 500
  ∧ (main_speech_to_text [1] (.error "m") 0).syncCalls = 1
  ∧ (main_speech_to_text [1] (.error "m") 0).longCalls = 0
  ∧ (test_generate_text (some [1]) (fun _ => .error "r")).longCalls ≤ 3
  ∧ (test_generate_text (some [1]) (fun _ => .error "r")).errMsg = some "r"
  ∧ (test_generate_text (some [1]) (fun _ => .error "r")).status = 500 :=
  claim3_retry_policies [1] (by decide) "s" "l" "m" (.error "l") 0
    (fun _ => .error "r") [1] (fun _ => "r")

/-- Claim C4 counterexample: a successful recognition response with zero
result segments has empty concatenated transcript, yet the endpoint returns
the sentinel text, so the returned transcript does not equal the
concatenation of the top alternatives at this input. -/
theorem claim4_counterexample :
    extractTranscript ⟨[]⟩ = ""
  ∧ (main_speech_to_text [1] (.ok ⟨[]⟩) 0).body = .success "No speech detected" 0
  ∧ "No speech detected" ≠ "" := by
  refine ⟨rfl, ?_, by decide⟩
  decide

/-- Claim C4 (amended): for every successful recognition response whose
concatenated top-alternative transcript is non-empty, both FastAPI handlers
return exactly the extraction of the response, and that extraction is the
concatenation, in vendor order and with no separator, of the top
alternative's transcript of each segment that carries at least one
alternative: the empty response extracts to the empty string, an
alternatives-free leading segment contributes nothing, and a leading segment
with a top alternative prepends exactly that alternative's transcript; the
`hello world` instance evaluates as stated. -/
theorem claim4_transcript_concat
    (audio : Bytes) (ha : audio ≠ []) (resp : RecoResponse) (elapsed : Nat)
    (hne : extractTranscript resp ≠ "") :
    (app_speech_to_text audio (.ok resp) (.ok ⟨[]⟩) elapsed).body
        = .success (extractTranscript resp) elapsed
  ∧ (main_speech_to_text audio (.ok resp) elapsed).body
        = .success (extractTranscript resp) elapsed
  ∧ extractTranscript ⟨[]⟩ = ""
  ∧ (∀ rest : List SpeechResult,
        extractTranscript ⟨SpeechResult.mk [] :: rest⟩ = extractTranscript ⟨rest⟩)
  ∧ (∀ (a : SpeechAlt) (alts : List SpeechAlt) (rest : List SpeechResult),
        extractTranscript ⟨SpeechResult.mk (a :: alts) :: rest⟩
          = a.transcript ++ extractTranscript ⟨rest⟩)
  ∧ extractTranscript
        ⟨[SpeechResult.mk [SpeechAlt.mk "hello "], SpeechResult.mk [SpeechAlt.mk "world"]]⟩
      = "hello world" := by
  refine ⟨?_, ?_, rfl, ?_, extractTranscript_cons_nonempty, by decide⟩
  · unfold app_speech_to_text
    rw [if_neg ha]
    simp only [if_neg hne]
  · unfold main_speech_to_text
    rw [if_neg ha]
    simp only [if_neg hne]
  · intro rest
    exact extractTranscript_skip [] rest ⟨[]⟩ rfl

/-- Concrete instance of claim C4 at a mixed response: a `hello ` segment, an
alternatives-free segment, then a `world` segment. -/
theorem claim4_transcript_concat_witness :
    (app_speech_to_text [1]
        (.ok ⟨[SpeechResult.mk [SpeechAlt.mk "hello "], SpeechResult.mk [],
               SpeechResult.mk [SpeechAlt.mk "world"]]⟩) (.ok ⟨[]⟩) 0).body
      = .success (extractTranscript
          ⟨[SpeechResult.mk [SpeechAlt.mk "hello "], SpeechResult.mk [],
            SpeechResult.mk [SpeechAlt.mk "world"]]⟩) 0
  ∧ (main_speech_to_text [1]
        (.ok ⟨[SpeechResult.mk [SpeechAlt.mk "hello "], SpeechResult.mk [],
               SpeechResult.mk [SpeechAlt.mk "world"]]⟩) 0).body
      = .success (extractTranscript
          ⟨[SpeechResult.mk [SpeechAlt.mk "hello "], SpeechResult.mk [],
            SpeechResult.mk [SpeechAlt.mk "world"]]⟩) 0
  ∧ extractTranscript ⟨[]⟩ = ""
  ∧ (∀ rest : List SpeechResult,
        extractTranscript ⟨SpeechResult.mk [] :: rest⟩ = extractTranscript ⟨rest⟩)
  ∧ (∀ (a : SpeechAlt) (alts : List SpeechAlt) (rest : List SpeechResult),
        extractTranscript ⟨SpeechResult.mk (a :: alts) :: rest⟩
          = a.transcript ++ extractTranscript ⟨rest⟩)
  ∧ extractTranscript
        ⟨[SpeechResult.mk [SpeechAlt.mk "hello "], SpeechResult.mk [SpeechAlt.mk "world"]]⟩
      = "hello world" :=
  claim4_transcript_concat [1] (by decide)
    ⟨[SpeechResult.mk [SpeechAlt.mk "hello "], SpeechResult.mk [],
      SpeechResult.mk [SpeechAlt.mk "world"]]⟩
    0 (by decide)

/-- Claim C5 counterexample: the sentinel actually returned for a response
with zero result segments is the capitalised string, which differs from the
sentinel text stated in the claim. -/
theorem claim5_counterexample :
    (main_speech_to_text [1] (.ok ⟨[]⟩) 7)
      = { status := 200, body := .success "No speech detected" 7,
          syncCalls := 1, longCalls := 0 }
  ∧ "No speech detected" ≠ "no speech detected" := by
  refine ⟨?_, by decide⟩
  decide

/-- Claim C5 (amended): whenever recognition succeeds but the extracted
transcript is empty (in particular for zero result segments), both FastAPI
handlers return HTTP 200 whose transcript is the sentinel
`No speech detected` (capital N) paired with the elapsed time, not an empty
string. -/
theorem claim5_sentinel
    (audio : Bytes) (ha : audio ≠ []) (resp : RecoResponse) (elapsed : Nat)
    (hz : extractTranscript resp = "") :
    app_speech_to_text audio (.ok resp) (.ok ⟨[]⟩) elapsed
      = { status := 200, body := .success "No speech detected" elapsed,
          syncCalls := 1, longCalls := 0 }
  ∧ main_speech_to_text audio (.ok resp) elapsed
      = { status := 200, body := .success "No speech detected" elapsed,
          syncCalls := 1, longCalls := 0 }
  ∧ extractTranscript ⟨[]⟩ = "" := by
  refine ⟨?_, ?_, rfl⟩
  · unfold app_speech_to_text
    rw [if_neg ha]
    simp only [if_pos hz]
  · unfold main_speech_to_text
    rw [if_neg ha]
    simp only [if_pos hz]

/-- Concrete instance of claim C5 at the zero-segment response. -/
theorem claim5_sentinel_witness :
    app_speech_to_text [1] (.ok ⟨[]⟩) (.ok ⟨[]⟩) 7
      = { status := 200, body := .success "No speech detected" 7,
          syncCalls := 1, longCalls := 0 }
  ∧ main_speech_to_text [1] (.ok ⟨[]⟩) 7
      = { status := 200, body := .success "No speech detected" 7,
          syncCalls := 1, longCalls := 0 }
  ∧ extractTranscript ⟨[]⟩ = "" :=
  claim5_sentinel [1] (by decide) ⟨[]⟩ 7 rfl

/-- The response path equals a leading slash followed by the written file
name in the `app.py` file-mode handler. -/
theorem appTtsPath_eq (t : Nat) :
    "/static/output_" ++ toString t ++ ".wav" = "/" ++ appTtsFileName t := by
  apply String.ext
  simp only [appTtsFileName, String.data_append, List.append_assoc]
  rfl

/-- Claim C6 counterexample: in the `test.py` variant listed by the claim,
two distinct successful synthesis requests write the same fixed file name,
which contains no timestamp component, so the written file name is not unique
per request. -/
theorem claim6_counterexample :
    (test_generate_audio (some "a") (.ok [0])).writes = [("static/output.wav", [0])]
  ∧ (test_generate_audio (some "b") (.ok [1])).writes = [("static/output.wav", [1])] := by
  refine ⟨?_, ?_⟩ <;> decide

/-- Claim C6 (amended): in the `app.py` file-mode variant every successful
synthesis request writes the vendor audio to `static/output_{timestamp}.wav`,
a name unique per request whenever the second-resolution timestamps differ,
and responds with exactly that file path (prefixed by a slash) and the
original text; the legacy `test.py` variant instead writes the fixed name
`static/output.wav` and responds with that path and the original text. -/
theorem claim6_file_mode
    (text : String) (ht : text ≠ "") (timestamp : Nat) (audio : Bytes)
    (t1 t2 : Nat) (ht12 : t1 ≠ t2) :
    (app_text_to_speech text timestamp (.ok audio)).status = 200
  ∧ (app_text_to_speech text timestamp (.ok audio)).writes
      = [(appTtsFileName timestamp, audio)]
  ∧ (app_text_to_speech text timestamp (.ok audio)).body
      = .json ("/" ++ appTtsFileName timestamp) text
  ∧ appTtsFileName t1 ≠ appTtsFileName t2
  ∧ (test_generate_audio (some text) (.ok audio)).status = 200
  ∧ (test_generate_audio (some text) (.ok audio)).writes
      = [("static/output.wav", audio)]
  ∧ (test_generate_audio (some text) (.ok audio)).body
      = .json "/static/output.wav" text := by
  refine ⟨?_, ?_, ?_, fun h => ht12 (appTtsFileName_inj h), ?_, ?_, ?_⟩
  · unfold app_text_to_speech
    rw [if_neg ht]
  · unfold app_text_to_speech
    rw [if_neg ht]
  · unfold app_text_to_speech
    rw [if_neg ht, appTtsPath_eq]
  · unfold test_generate_audio
    simp only [Option.getD_some]
    rw [if_neg ht]
  · unfold test_generate_audio
    simp only [Option.getD_some]
    rw [if_neg ht]
  · unfold test_generate_audio
    simp only [Option.getD_some]
    rw [if_neg ht]

/-- Concrete instance of claim C6. -/
theorem claim6_file_mode_witness :
    (app_text_to_speech "x" 5 (.ok [0])).status = 200
  ∧ (app_text_to_speech "x" 5 (.ok [0])).writes = [(appTtsFileName 5, [0])]
  ∧ (app_text_to_speech "x" 5 (.ok [0])).body = .json ("/" ++ appTtsFileName 5) "x"
  ∧ appTtsFileName 0 ≠ appTtsFileName 1
  ∧ (test_generate_audio (some "x") (.ok [0])).status = 200
  ∧ (test_generate_audio (some "x") (.ok [0])).writes = [("static/output.wav", [0])]
  ∧ (test_generate_audio (some "x") (.ok [0])).body = .json "/static/output.wav" "x" :=
  claim6_file_mode "x" (by decide) 5 [0] 0 1 (by decide)

/-- A replicated list of positive length is non-empty. -/
theorem replicate_ne_nil_of_pos {n : Nat} (h : 0 < n) (a : Nat) :
    List.replicate n a ≠ [] := by
  intro he
  have hl := congrArg List.length he
  simp only [List.length_replicate, List.length_nil] at hl
  omega

/-- The chunking of a 5000-byte buffer: one full 4096-byte chunk followed by
a 904-byte remainder. -/
theorem asg_replicate_5000 :
    audio_stream_generator (List.replicate 5000 0)
      = [List.replicate 4096 0, List.replicate 904 0] := by
  have h1 : (List.replicate 5000 (0 : Nat)) ≠ [] := replicate_ne_nil_of_pos (by omega) 0
  have h2 : (List.replicate 904 (0 : Nat)) ≠ [] := replicate_ne_nil_of_pos (by omega) 0
  rw [audio_stream_generator_ne_nil h1, List.take_replicate, List.drop_replicate]
  have hm1 : min 4096 5000 = 4096 := by norm_num
  have hs1 : 5000 - 4096 = 904 := by norm_num
  rw [hm1, hs1, audio_stream_generator_ne_nil h2, List.take_replicate, List.drop_replicate]
  have hm2 : min 4096 904 = 904 := by norm_num
  have hs2 : 904 - 4096 = 0 := by norm_num
  rw [hm2, hs2, List.replicate_zero, audio_stream_generator_nil]

/-- Claim C7 counterexample: for a successful streaming synthesis of a
5000-byte vendor audio buffer, the yielded chunk sequence is a full
4096-byte chunk followed by a 904-byte chunk, so not every delivered chunk
has the fixed size 4096. -/
theorem claim7_counterexample :
    (main_text_to_speech "hi" (.ok (List.replicate 5000 0))).body
      = .stream [List.replicate 4096 0, List.replicate 904 0] "audio/wav"
          "inline; filename=synthesized_audio.wav"
  ∧ (List.replicate 904 (0 : Nat)).length ≠ 4096 := by
  constructor
  · unfold main_text_to_speech
    rw [if_neg (by decide : ¬ ("hi" = ""))]
    show TtsBody.stream (audio_stream_generator (List.replicate 5000 0)) _ _ = _
    rw [asg_replicate_5000]
  · rw [List.length_replicate]
    omega

/-- Claim C7 (amended): in streaming mode every successful synthesis request
answers HTTP 200 with the vendor audio delivered as the chunk sequence of
`audio_stream_generator` (all chunks of 4096 bytes except possibly a shorter
final chunk, flattening back to exactly the audio), with media type
`audio/wav` and a content-disposition header, and writes no file. -/
theorem claim7_streaming (text : String) (ht : text ≠ "") (audio : Bytes) :
    main_text_to_speech text (.ok audio)
      = { status := 200,
          body := .stream (audio_stream_generator audio) "audio/wav"
            "inline; filename=synthesized_audio.wav",
          synthCalls := 1, writes := [] }
  ∧ (audio_stream_generator audio).flatten = audio
  ∧ (∀ c ∈ (audio_stream_generator audio).dropLast, c.length = 4096)
  ∧ (∀ c ∈ audio_stream_generator audio, c.length ≤ 4096) := by
  refine ⟨?_, asg_flatten audio, asg_dropLast audio, asg_chunk_le audio⟩
  unfold main_text_to_speech
  rw [if_neg ht]

/-- Concrete instance of claim C7. -/
theorem claim7_streaming_witness :
    main_text_to_speech "x" (.ok [1, 2])
      = { status := 200,
          body := .stream (audio_stream_generator [1, 2]) "audio/wav"
            "inline; filename=synthesized_audio.wav",
          synthCalls := 1, writes := [] }
  ∧ (audio_stream_generator [1, 2]).flatten = [1, 2]
  ∧ (∀ c ∈ (audio_stream_generator [1, 2]).dropLast, c.length = 4096)
  ∧ (∀ c ∈ audio_stream_generator [1, 2], c.length ≤ 4096) :=
  claim7_streaming "x" (by decide) [1, 2]

/-- Claim C8: every vendor-call error that determines a handler outcome is
caught at the handler boundary and surfaces as a 500 response whose detail
carries the underlying error message; the handlers (total functions here)
always produce a response, and on failure no transcript, no audio and no
file write are returned alongside the error. -/
theorem claim8_vendor_error_policy
    (text : String) (ht : text ≠ "") (timestamp : Nat)
    (audio : Bytes) (ha : audio ≠ [])
    (e eSync eLong : String) (elapsed : Nat)
    (fileAudio : Bytes) (g : Nat → String) :
    app_text_to_speech text timestamp (.error e)
      = { status := 500, body := .err e, synthCalls := 1, writes := [] }
  ∧ main_text_to_speech text (.error e)
      = { status := 500, body := .err ("Failed to synthesize speech: " ++ e),
          synthCalls := 1, writes := [] }
  ∧ test_generate_audio (some text) (.error e)
      = { status := 500, body := .err e, synthCalls := 1, writes := [] }
  ∧ app_speech_to_text audio (.error eSync) (.error eLong) elapsed
      = { status := 500, body := .err eLong, syncCalls := 1, longCalls := 1 }
  ∧ main_speech_to_text audio (.error eSync) elapsed
      = { status := 500, body := .err (mainSttFailDetail eSync),
          syncCalls := 1, longCalls := 0 }
  ∧ test_generate_text (some fileAudio) (fun i => .error (g i))
      = { status := 500, transcript := none, errMsg := some (g 2), longCalls := 3 } := by
  refine ⟨?_, ?_, ?_, ?_, ?_, rfl⟩
  · unfold app_text_to_speech
    rw [if_neg ht]
  · unfold main_text_to_speech
    rw [if_neg ht]
  · unfold test_generate_audio
    simp only [Option.getD_some]
    rw [if_neg ht]
  · unfold app_speech_to_text
    rw [if_neg ha]
  · unfold main_speech_to_text
    rw [if_neg ha]

/-- Concrete instance of claim C8 with distinct error messages in each
variant. -/
theorem claim8_vendor_error_policy_witness :
    app_text_to_speech "x" 3 (.error "E1")
      = { status := 500, body := .err "E1", synthCalls := 1, writes := [] }
  ∧ main_text_to_speech "x" (.error "E1")
      = { status := 500, body := .err ("Failed to synthesize speech: " ++ "E1"),
          synthCalls := 1, writes := [] }
  ∧ test_generate_audio (some "x") (.error "E1")
      = { status := 500, body := .err "E1", synthCalls := 1, writes := [] }
  ∧ app_speech_to_text [1] (.error "E2") (.error "E3") 2
      = { status := 500, body := .err "E3", syncCalls := 1, longCalls := 1 }
  ∧ main_speech_to_text [1] (.error "E2") 2
      = { status := 500, body := .err (mainSttFailDetail "E2"),
          syncCalls := 1, longCalls := 0 }
  ∧ test_generate_text (some []) (fun _ => .error "E4")
      = { status := 500, transcript := none, errMsg := some "E4", longCalls := 3 } :=
  claim8_vendor_error_policy "x" (by decide) 3 [1] (by decide) "E1" "E2" "E3" 2 []
    (fun _ => "E4")

end CdfTts
